import Mathlib

/- Verification development for the MLVideoEditor desktop tool.
   The Python sources (videomleditor/player_controller.py, videomleditor/main_window.py,
   videomleditor/video_view.py) are shallowly embedded below: pure numeric code is
   translated over ℚ (machine floats idealized as rationals) or ℝ (where the code
   calls sqrt/acos), stateful controller and view code becomes explicit state passing,
   and Qt signal emissions become returned event values. -/

namespace VideoMLEditor

/- Python arithmetic primitives -/

/-- Python built-in `round` on a numeric value: round half to even (banker's rounding). -/
def pyRound (q : ℚ) : ℤ :=
  if q - ⌊q⌋ < 1/2 then ⌊q⌋
  else if 1/2 < q - ⌊q⌋ then ⌊q⌋ + 1
  else if ⌊q⌋ % 2 = 0 then ⌊q⌋ else ⌊q⌋ + 1

/-- Python built-in `int()` applied to a float: truncation toward zero. -/
def pyInt (q : ℚ) : ℤ :=
  if 0 ≤ q then ⌊q⌋ else ⌈q⌉

/- Frame/Time converter (MainWindow._frame_to_ms and MainWindow._update_frame_label).
   Both guard the stored frame rate with `if self._frame_rate <= 0: self._frame_rate = 30.0`
   before converting. -/

/-- MainWindow._frame_to_ms: `int(round(frame * (1000.0 / self._frame_rate)))`. -/
def frame_to_ms (frame_rate : ℚ) (frame : ℤ) : ℤ :=
  pyRound ((frame : ℚ) * (1000 / (if frame_rate ≤ 0 then 30 else frame_rate)))

/-- Frame computation of MainWindow._update_frame_label:
    `int(round(position_ms / (1000.0 / self._frame_rate)))`. -/
def ms_to_frame (frame_rate : ℚ) (position_ms : ℤ) : ℤ :=
  pyRound ((position_ms : ℚ) / (1000 / (if frame_rate ≤ 0 then 30 else frame_rate)))

/- Playback controller (videomleditor/player_controller.py, VideoPlayerController).
   The backend QMediaPlayer is modeled by its observable position/duration and a paused
   flag; the controller state carries the discovered frame interval and loop preference.
   Signal emissions of frame_rate_changed / error_occurred become returned values. -/

structure PlayerState where
  position : ℤ
  duration : ℤ
  paused : Bool
deriving DecidableEq

structure ControllerState where
  player : PlayerState
  frame_interval_ms : ℚ
  loop_enabled : Bool
deriving DecidableEq

/-- Controller state right after VideoPlayerController.__init__:
    frame interval derived from _DEFAULT_FRAME_RATE = 30.0, looping off. -/
def initial_controller (player : PlayerState) : ControllerState :=
  { player := player, frame_interval_ms := 1000 / 30, loop_enabled := false }

/-- VideoPlayerController.skip_frames: no-op when the offset is 0 or the duration is ≤ 0;
    otherwise `delta_ms = int(frame_offset * self._frame_interval_ms)` and the position is
    set to `max(0, min(duration, position + delta_ms))`. -/
def skip_frames (frame_offset : ℤ) (s : ControllerState) : ControllerState :=
  if frame_offset = 0 ∨ s.player.duration ≤ 0 then s
  else
    let delta_ms := pyInt ((frame_offset : ℚ) * s.frame_interval_ms)
    let new_position := max 0 (min s.player.duration (s.player.position + delta_ms))
    { s with player := { s.player with position := new_position } }

/-- VideoPlayerController._update_frame_interval. `metadata_rate` is the value the backend
    metadata reports for VideoFrameRate (`none` = absent); Python truthiness makes both
    `None` and `0` fall back to the default 30.0, and a second guard replaces any
    non-positive rate by 30.0. Returns the new state and the rate emitted via
    frame_rate_changed (which this method always emits). -/
def update_frame_interval (metadata_rate : Option ℚ) (s : ControllerState) :
    ControllerState × ℚ :=
  let rate0 : ℚ :=
    match metadata_rate with
    | none => 30
    | some v => if v = 0 then 30 else v
  let frame_rate := if rate0 ≤ 0 then 30 else rate0
  ({ s with frame_interval_ms := 1000 / frame_rate }, frame_rate)

inductive MediaStatus
  | NoMedia
  | LoadingMedia
  | LoadedMedia
  | StalledMedia
  | BufferingMedia
  | BufferedMedia
  | EndOfMedia
  | InvalidMedia
deriving DecidableEq

/-- VideoPlayerController._handle_media_status (after re-emitting media_status_changed):
    on BufferedMedia/LoadedMedia it runs frame-rate discovery; on EndOfMedia with looping
    disabled it forces the position to the duration (when positive) and pauses. The second
    component is the frame rate emitted via frame_rate_changed, if any. -/
def handle_media_status (status : MediaStatus) (metadata_rate : Option ℚ)
    (s : ControllerState) : ControllerState × Option ℚ :=
  if status = .BufferedMedia ∨ status = .LoadedMedia then
    let r := update_frame_interval metadata_rate s
    (r.1, some r.2)
  else if status = .EndOfMedia then
    if s.loop_enabled then (s, none)
    else
      let p1 :=
        if 0 < s.player.duration then
          { s.player with position := s.player.duration }
        else s.player
      ({ s with player := { p1 with paused := true } }, none)
  else (s, none)

inductive PlayerErrorKind
  | NoError
  | ResourceError
  | FormatError
  | NetworkError
  | AccessDeniedError
deriving DecidableEq

/-- VideoPlayerController._handle_error: the list of payloads emitted on error_occurred.
    Python's `error_string or "Erro ao carregar o vídeo."` substitutes the generic message
    exactly when the backend-supplied string is empty. -/
def handle_error (error : PlayerErrorKind) (error_string : String) : List String :=
  if error ≠ .NoError then
    [if error_string = "" then "Erro ao carregar o vídeo." else error_string]
  else []

/- Video view gesture state machine (videomleditor/video_view.py, VideoView).
   Coordinates are content-space rationals; the video item's bounding rect is a Rect.
   Qt graphics items are modeled by their presence (a flag for the line preview item, a
   count for the angle preview lines); signal emissions of mousePressEvent become a
   returned event list. The tool is the string field _current_tool, drawn from the closed
   set used by MainWindow's tool toggles. -/

structure QPoint where
  x : ℚ
  y : ℚ
deriving DecidableEq

inductive Tool
  | selection
  | hand
  | point
  | line
  | angle
deriving DecidableEq

structure Rect where
  left : ℚ
  top : ℚ
  right : ℚ
  bottom : ℚ
deriving DecidableEq

/-- QRectF.contains(x, y): edges included, used by VideoView._is_inside_video. -/
def Rect.contains (r : Rect) (x y : ℚ) : Bool :=
  decide (r.left ≤ x) && decide (x ≤ r.right) && decide (r.top ≤ y) && decide (y ≤ r.bottom)

/-- VideoView._clamp_to_video_bounds: each axis clamped independently to the rect. -/
def clamp_to_video_bounds (r : Rect) (x y : ℚ) : ℚ × ℚ :=
  (max r.left (min r.right x), max r.top (min r.bottom y))

structure ViewState where
  current_tool : Tool
  line_start_point : Option QPoint
  line_is_dragging : Bool
  line_preview_item : Bool
  line_guide_enabled : Bool
  angle_points : List QPoint
  angle_preview_lines : ℕ
  shift_pressed : Bool
deriving DecidableEq

/-- VideoView._cancel_line_drawing: drops the start point, the dragging flag, and the
    preview item (removing it from the scene). -/
def cancel_line_drawing (s : ViewState) : ViewState :=
  { s with line_start_point := none, line_is_dragging := false, line_preview_item := false }

/-- VideoView._cancel_angle_drawing: clears collected points and removes preview lines
    from the scene (it also emits angle_preview_changed(-1), a pure UI notification with
    no effect on this state). -/
def cancel_angle_drawing (s : ViewState) : ViewState :=
  { s with angle_points := [], angle_preview_lines := 0 }

/-- VideoView.set_current_tool: cancels both in-progress gestures when the tool actually
    changes, then records the new tool. -/
def set_current_tool (tool : Tool) (s : ViewState) : ViewState :=
  let s1 := if s.current_tool ≠ tool then cancel_angle_drawing (cancel_line_drawing s) else s
  { s1 with current_tool := tool }

/-- Rational form of VideoView._project_to_perpendicular, used inside the rational view
    state machine: the two divisions by `length = sqrt(perp_dx² + perp_dy²)` are combined
    into one division by the squared length, which removes the square root. The theorem
    `project_to_perpendicular_agrees` below shows this coincides with the literal
    real-valued embedding `project_to_perpendicular`. -/
def project_to_perpendicular_rat (p1 p2 : QPoint) (x y : ℚ) : ℚ × ℚ :=
  let dx := p2.x - p1.x
  let dy := p2.y - p1.y
  if |dx| < 1/1000 ∧ |dy| < 1/1000 then (x, y)
  else
    let perp_dx := -dy
    let perp_dy := dx
    let len_sq := perp_dx * perp_dx + perp_dy * perp_dy
    let vx := x - p2.x
    let vy := y - p2.y
    let dot := vx * perp_dx + vy * perp_dy
    (p2.x + dot * perp_dx / len_sq, p2.y + dot * perp_dy / len_sq)

inductive ViewEvent
  | annotation_requested (x y : ℚ)
  | line_completed (x1 y1 x2 y2 : ℚ)
  | angle_completed (x1 y1 x2 y2 x3 y3 : ℚ)
deriving DecidableEq

/-- VideoView.mousePressEvent for a left-button press with hand mode off, at content-space
    coordinates (x, y) (the result of _map_to_video_coords); video_rect is the video
    item's bounding rect. Returns the new state and the emitted signals. -/
def mouse_press (video_rect : Rect) (x y : ℚ) (s : ViewState) : ViewState × List ViewEvent :=
  match s.current_tool with
  | .point =>
      if video_rect.contains x y then (s, [.annotation_requested x y]) else (s, [])
  | .line =>
      match s.line_start_point with
      | none =>
          if video_rect.contains x y then
            ({ s with line_start_point := some ⟨x, y⟩, line_is_dragging := true }, [])
          else (s, [])
      | some start =>
          let c := clamp_to_video_bounds video_rect x y
          (cancel_line_drawing s, [.line_completed start.x start.y c.1 c.2])
  | .angle =>
      let c := clamp_to_video_bounds video_rect x y
      match s.angle_points with
      | [] =>
          if video_rect.contains c.1 c.2 then
            ({ s with angle_points := [⟨c.1, c.2⟩] }, [])
          else (s, [])
      | [p1] => ({ s with angle_points := [p1, ⟨c.1, c.2⟩] }, [])
      | [p1, p2] =>
          let pr :=
            if s.shift_pressed then project_to_perpendicular_rat p1 p2 c.1 c.2
            else (c.1, c.2)
          let f := clamp_to_video_bounds video_rect pr.1 pr.2
          (cancel_angle_drawing s, [.angle_completed p1.x p1.y p2.x p2.y f.1 f.2])
      | _ => (s, [])
  | _ => (s, [])

/- Annotation geometry engine (VideoView._calculate_angle and
   VideoView._project_to_perpendicular): literal embeddings over ℝ, since the code calls
   math.sqrt / math.acos. math.degrees(a) is a * (180 / pi). -/

/-- VideoView._calculate_angle: angle at p2 formed by p1-p2-p3, via the normalized dot
    product; returns 0.0 when either vector's magnitude is below 0.001; the cosine is
    clamped to [-1, 1] before acos; angles above 180 are folded back as 360 - angle. -/
noncomputable def calculate_angle (p1 p2 p3 : ℝ × ℝ) : ℝ :=
  let v1x := p1.1 - p2.1
  let v1y := p1.2 - p2.2
  let v2x := p3.1 - p2.1
  let v2y := p3.2 - p2.2
  let mag1 := Real.sqrt (v1x * v1x + v1y * v1y)
  let mag2 := Real.sqrt (v2x * v2x + v2y * v2y)
  if mag1 < 0.001 ∨ mag2 < 0.001 then 0
  else
    let dot := v1x * v2x + v1y * v2y
    let cos_angle := dot / (mag1 * mag2)
    let cos_clamped := max (-1) (min 1 cos_angle)
    let angle_rad := Real.arccos cos_clamped
    let angle_deg := angle_rad * (180 / Real.pi)
    if angle_deg > 180 then 360 - angle_deg else angle_deg

/-- VideoView._project_to_perpendicular: projects (x, y) onto the line through p2
    perpendicular to p1→p2; returns (x, y) unchanged when p1 and p2 coincide within
    0.001 on both axes. -/
noncomputable def project_to_perpendicular (p1 p2 : ℝ × ℝ) (x y : ℝ) : ℝ × ℝ :=
  let dx := p2.1 - p1.1
  let dy := p2.2 - p1.2
  if |dx| < 0.001 ∧ |dy| < 0.001 then (x, y)
  else
    let perp_dx := -dy
    let perp_dy := dx
    let length := Real.sqrt (perp_dx * perp_dx + perp_dy * perp_dy)
    let npx := perp_dx / length
    let npy := perp_dy / length
    let vx := x - p2.1
    let vy := y - p2.2
    let dot := vx * npx + vy * npy
    (p2.1 + dot * npx, p2.2 + dot * npy)

/- Annotation store (MainWindow): the saved-frame list self._saved_frames, the
   frame → annotation-list dict self._annotations (modeled as an insertion-ordered
   association list, the Python dict having unique keys), and the per-type counter dict
   self._annotation_counter. Tree rebuilds and canvas refreshes are pure UI output and
   carry no model state. -/

structure RGB where
  r : ℕ
  g : ℕ
  b : ℕ
deriving DecidableEq

/-- One entry of self._saved_frames: `{"frame": frame, "name": None}`. -/
structure SavedFrame where
  frame : ℤ
  name : Option String
deriving DecidableEq

/-- The per-type payload of an annotation dict (its "type" tag and geometry fields).
    The stored angle value is ℚ here: the caller passes the precomputed display value. -/
inductive AnnData
  | point (x y : ℚ) (size : ℕ)
  | line (x1 y1 x2 y2 : ℚ) (width : ℕ)
  | angle (x1 y1 x2 y2 x3 y3 : ℚ) (width : ℕ) (angle : ℚ)
deriving DecidableEq

/-- An annotation dict: payload plus the common fields color, name, id. -/
structure Annotation where
  data : AnnData
  color : RGB
  name : Option String
  id : ℕ
deriving DecidableEq

/-- Lookup in the frame → annotations dict (`self._annotations.get(frame)` /
    `frame in self._annotations`). -/
def dictGet (m : List (ℤ × List Annotation)) (k : ℤ) : Option (List Annotation) :=
  match m with
  | [] => none
  | p :: t => if p.1 = k then some p.2 else dictGet t k

/-- Write `self._annotations[frame] = v`: replace the value at an existing key, else
    append the new key in insertion order. -/
def dictSet (m : List (ℤ × List Annotation)) (k : ℤ) (v : List Annotation) :
    List (ℤ × List Annotation) :=
  match m with
  | [] => [(k, v)]
  | p :: t => if p.1 = k then (k, v) :: t else p :: dictSet t k v

/-- `del self._annotations[frame]` (keys are unique, so dropping every entry with the key
    removes exactly the frame's entry). -/
def dictErase (m : List (ℤ × List Annotation)) (k : ℤ) : List (ℤ × List Annotation) :=
  match m with
  | [] => []
  | p :: t => if p.1 = k then dictErase t k else p :: dictErase t k

structure Store where
  saved_frames : List SavedFrame
  annotations : List (ℤ × List Annotation)
  counter_point : ℕ
  counter_line : ℕ
  counter_angle : ℕ
  counter_freehand : ℕ
  counter_brush : ℕ
deriving DecidableEq

/-- Store right after MainWindow.__init__: empty lists,
    `self._annotation_counter = {"point": 0, "line": 0, "angle": 0, "freehand": 0, "brush": 0}`. -/
def initial_store : Store :=
  { saved_frames := [], annotations := [], counter_point := 0, counter_line := 0,
    counter_angle := 0, counter_freehand := 0, counter_brush := 0 }

/-- The shared prologue of the _create_*_annotation methods: ensure the frame exists in
    self._saved_frames (append `{"frame": frame, "name": None}` and re-sort by frame, a
    stable sort as in Python list.sort). -/
def ensure_saved_frame (frame : ℤ) (frames : List SavedFrame) : List SavedFrame :=
  if frames.any (fun e => e.frame = frame) then frames
  else (frames ++ [({ frame := frame, name := none } : SavedFrame)]).mergeSort
    (fun a b => a.frame ≤ b.frame)

/-- Ensure `self._annotations[frame]` exists (`if frame not in self._annotations:
    self._annotations[frame] = []`). -/
def ensure_annotation_list (frame : ℤ) (m : List (ℤ × List Annotation)) :
    List (ℤ × List Annotation) :=
  if (dictGet m frame).isSome then m else dictSet m frame []

/-- Append the freshly built annotation dict to the frame's list
    (`self._annotations[frame].append(annotation)`). -/
def append_annot (frame : ℤ) (ann : Annotation) (m : List (ℤ × List Annotation)) :
    List (ℤ × List Annotation) :=
  dictSet m frame ((dictGet m frame).getD [] ++ [ann])

/-- MainWindow._create_point_annotation: ensure frame and list, increment the "point"
    counter, and append a point annotation carrying the new counter value as its id.
    Returns the new store and the created annotation. -/
def create_point_annot (frame : ℤ) (x y : ℚ) (point_size : ℕ) (point_color : RGB)
    (s : Store) : Store × Annotation :=
  let frames := ensure_saved_frame frame s.saved_frames
  let anns := ensure_annotation_list frame s.annotations
  let cnt := s.counter_point + 1
  let ann : Annotation := { data := .point x y point_size, color := point_color,
                            name := none, id := cnt }
  ({ s with saved_frames := frames, annotations := append_annot frame ann anns,
            counter_point := cnt }, ann)

/-- MainWindow._create_line_annotation: same shape with the independent "line" counter. -/
def create_line_annot (frame : ℤ) (x1 y1 x2 y2 : ℚ) (line_width : ℕ)
    (line_color : RGB) (s : Store) : Store × Annotation :=
  let frames := ensure_saved_frame frame s.saved_frames
  let anns := ensure_annotation_list frame s.annotations
  let cnt := s.counter_line + 1
  let ann : Annotation := { data := .line x1 y1 x2 y2 line_width, color := line_color,
                            name := none, id := cnt }
  ({ s with saved_frames := frames, annotations := append_annot frame ann anns,
            counter_line := cnt }, ann)

/-- MainWindow._create_angle_annotation: same shape with the independent "angle" counter;
    `angle_value` is the precomputed display angle passed by the caller. -/
def create_angle_annot (frame : ℤ) (x1 y1 x2 y2 x3 y3 : ℚ) (angle_width : ℕ)
    (angle_color : RGB) (angle_value : ℚ) (s : Store) : Store × Annotation :=
  let frames := ensure_saved_frame frame s.saved_frames
  let anns := ensure_annotation_list frame s.annotations
  let cnt := s.counter_angle + 1
  let ann : Annotation := { data := .angle x1 y1 x2 y2 x3 y3 angle_width angle_value,
                            color := angle_color, name := none, id := cnt }
  ({ s with saved_frames := frames, annotations := append_annot frame ann anns,
            counter_angle := cnt }, ann)

/-- The tree selection payload read by MainWindow._delete_selected_frame: the legacy
    plain-int format, the `{"type": "frame"}` dict, or the `{"type": "annotation"}` dict
    carrying the frame and the annotation itself. -/
inductive TreeSelection
  | legacy_frame (frame : ℤ)
  | frame_node (frame : ℤ)
  | annotation_node (frame : ℤ) (ann : Annotation)
deriving DecidableEq

/-- MainWindow._delete_selected_frame on the given selection: deleting a frame filters it
    out of self._saved_frames and deletes its dict entry with all its annotations;
    deleting an annotation removes (the first occurrence of) that annotation from its
    frame's list only, keeping the SavedFrame entry even when the list becomes empty. -/
def delete_selected (sel : TreeSelection) (s : Store) : Store :=
  match sel with
  | .legacy_frame f =>
      { s with saved_frames := s.saved_frames.filter (fun e => e.frame ≠ f),
               annotations := dictErase s.annotations f }
  | .frame_node f =>
      { s with saved_frames := s.saved_frames.filter (fun e => e.frame ≠ f),
               annotations := dictErase s.annotations f }
  | .annotation_node f a =>
      match dictGet s.annotations f with
      | some lst =>
          if a ∈ lst then { s with annotations := dictSet s.annotations f (lst.erase a) }
          else s
      | none => s

theorem pyRound_intCast (m : ℤ) : pyRound (m : ℚ) = m := by
  simp [pyRound, Int.floor_intCast]

theorem pyRound_eq_of_abs_sub_lt {q : ℚ} {m : ℤ} (h : |q - m| < 1/2) : pyRound q = m := by
  rw [abs_sub_lt_iff] at h
  obtain ⟨h1, h2⟩ := h
  by_cases hq : (m : ℚ) ≤ q
  · have hfl : ⌊q⌋ = m := Int.floor_eq_iff.mpr ⟨hq, by linarith⟩
    unfold pyRound
    rw [hfl, if_pos h1]
  · push_neg at hq
    have hfl : ⌊q⌋ = m - 1 := Int.floor_eq_iff.mpr ⟨by push_cast; linarith, by push_cast; linarith⟩
    have hB : (1 : ℚ)/2 < q - ((m - 1 : ℤ) : ℚ) := by push_cast; linarith
    have hA : ¬ (q - ((m - 1 : ℤ) : ℚ) < 1/2) := not_lt.mpr (le_of_lt hB)
    unfold pyRound
    rw [hfl, if_neg hA, if_pos hB]
    omega

theorem abs_sub_pyRound_le (q : ℚ) : |q - pyRound q| ≤ 1/2 := by
  have h0 : (⌊q⌋ : ℚ) ≤ q := Int.floor_le q
  have h1 : q < ⌊q⌋ + 1 := Int.lt_floor_add_one q
  unfold pyRound
  split_ifs with ha hb hc
  · exact abs_le.mpr ⟨by linarith, le_of_lt ha⟩
  · push_cast
    exact abs_le.mpr ⟨by linarith, by linarith⟩
  · have he : q - (⌊q⌋ : ℚ) = 1/2 := le_antisymm (not_lt.mp hb) (not_lt.mp ha)
    exact abs_le.mpr ⟨by linarith, by linarith⟩
  · have he : q - (⌊q⌋ : ℚ) = 1/2 := le_antisymm (not_lt.mp hb) (not_lt.mp ha)
    push_cast
    exact abs_le.mpr ⟨by linarith, by linarith⟩

/-- C1 (counterexample): at frame rate r = 2000 and frame f = 1 the round trip fails:
    ms_of(1, 2000) = round(0.5) = 0 (Python rounds half to even), and frame_of(0, 2000) = 0 ≠ 1.
    So the round-trip law does not hold for every positive frame rate. -/
theorem C1_counterexample : ms_to_frame 2000 (frame_to_ms 2000 1) = 0 ∧ (0 : ℤ) ≠ 1 := by
  constructor
  · norm_num [ms_to_frame, frame_to_ms, pyRound]
  · decide

/-- C1 (amended): the frame ↔ milliseconds round trip frame_of(ms_of(f, r), r) = f holds for
    every frame index f ≥ 0 and every frame rate r with 0 < r ≤ 1000, i.e. whenever the frame
    interval 1000/r is at least one millisecond. (For r > 1000 it can fail, see the
    counterexample.) -/
theorem C1_roundtrip (f : ℕ) (r : ℚ) (h0 : 0 < r) (h1 : r ≤ 1000) :
    ms_to_frame r (frame_to_ms r (f : ℤ)) = (f : ℤ) := by
  have hng : ¬ r ≤ 0 := not_le.mpr h0
  unfold frame_to_ms ms_to_frame
  simp only [hng, if_false]
  set i : ℚ := 1000 / r with hi_def
  have hipos : 0 < i := div_pos (by norm_num) h0
  have hi1 : 1 ≤ i := (le_div_iff₀ h0).mpr (by linarith)
  set q : ℚ := ((f : ℤ) : ℚ) * i with hq_def
  set ms : ℤ := pyRound q with hms_def
  have habs : |q - (ms : ℚ)| ≤ 1/2 := abs_sub_pyRound_le q
  rcases eq_or_lt_of_le hi1 with hone | hgt
  · -- interval exactly 1 ms (r = 1000): both roundings are exact
    have hq1 : q = ((f : ℤ) : ℚ) := by rw [hq_def, ← hone, mul_one]
    have hms1 : ms = (f : ℤ) := by rw [hms_def, hq1, pyRound_intCast]
    rw [hms1, ← hone, div_one, pyRound_intCast]
  · -- interval strictly greater than 1 ms: the back division contracts the rounding error
    apply pyRound_eq_of_abs_sub_lt
    have hne : i ≠ 0 := ne_of_gt hipos
    have heq : (ms : ℚ) / i - ((f : ℤ) : ℚ) = ((ms : ℚ) - q) / i := by
      rw [hq_def]; field_simp; ring
    rw [heq, abs_div, abs_of_pos hipos, div_lt_iff₀ hipos]
    have habs' : |(ms : ℚ) - q| ≤ 1/2 := by rw [abs_sub_comm]; exact habs
    nlinarith [habs']

/-- C1 (witness): the round trip at f = 7, r = 30. -/
theorem C1_witness : ms_to_frame 30 (frame_to_ms 30 ((7 : ℕ) : ℤ)) = ((7 : ℕ) : ℤ) :=
  C1_roundtrip 7 30 (by decide) (by decide)

theorem pyInt_nonpos {q : ℚ} (h : q ≤ 0) : pyInt q ≤ 0 := by
  unfold pyInt
  split_ifs with h0
  · have : q = 0 := le_antisymm h h0
    simp [this]
  · exact Int.ceil_le.mpr (by exact_mod_cast h)

theorem skip_frames_noop {s : ControllerState} {n : ℤ}
    (h : n = 0 ∨ s.player.duration ≤ 0) : skip_frames n s = s := by
  simp [skip_frames, h]

theorem skip_frames_position {s : ControllerState} {n : ℤ}
    (hn : n ≠ 0) (hd : 0 < s.player.duration) :
    (skip_frames n s).player.position =
      max 0 (min s.player.duration
        (s.player.position + pyInt ((n : ℚ) * s.frame_interval_ms))) := by
  have hcond : ¬ (n = 0 ∨ s.player.duration ≤ 0) := by
    push_neg
    exact ⟨hn, hd⟩
  simp [skip_frames, hcond]

/-- C2 (counterexample): the claim computes the skip delta with `round`; the code uses
    Python `int()`, which truncates toward zero. At the default frame interval 1000/30 a
    skip of 2 frames from position 0 (duration 100000) moves to 66 ms, while the claimed
    `round(2 * (1000/30)) = 67` would move to 67 ms. -/
theorem C2_counterexample :
    (skip_frames 2 (initial_controller ⟨0, 100000, false⟩)).player.position = 66 ∧
    max 0 (min (100000 : ℤ) (0 + pyRound ((2 : ℚ) * (1000 / 30)))) = 67 := by
  constructor
  · norm_num [skip_frames, initial_controller, pyInt]
  · norm_num [pyRound]

/-- C2 (amended): skip_frames(n) is a no-op when n = 0 or the media duration is ≤ 0;
    otherwise it computes `delta_ms = int(n * frame_interval_ms)` (Python truncation
    toward zero, not `round`) with the currently known frame interval, adds it to the
    current position, clamps to [0, duration], and seeks there; in particular
    skip_frames(-1) from position 0 (with a nonnegative frame interval) leaves the
    position at 0. -/
theorem C2_skip_frames (s : ControllerState) (n : ℤ) :
    (n = 0 → skip_frames n s = s) ∧
    (s.player.duration ≤ 0 → skip_frames n s = s) ∧
    (n ≠ 0 → 0 < s.player.duration →
      (skip_frames n s).player.position =
        max 0 (min s.player.duration
          (s.player.position + pyInt ((n : ℚ) * s.frame_interval_ms))) ∧
      0 ≤ (skip_frames n s).player.position ∧
      (skip_frames n s).player.position ≤ s.player.duration) ∧
    (s.player.position = 0 → 0 ≤ s.frame_interval_ms →
      (skip_frames (-1) s).player.position = 0) := by
  refine ⟨fun h0 => skip_frames_noop (Or.inl h0), fun hd => skip_frames_noop (Or.inr hd),
    ?_, ?_⟩
  · intro hn hd
    have hpos := skip_frames_position hn hd
    refine ⟨hpos, ?_, ?_⟩
    · rw [hpos]
      exact le_max_left 0 _
    · rw [hpos]
      have h1 : min s.player.duration
          (s.player.position + pyInt ((n : ℚ) * s.frame_interval_ms)) ≤ s.player.duration :=
        min_le_left _ _
      omega
  · intro hp hi
    by_cases hd : s.player.duration ≤ 0
    · rw [skip_frames_noop (Or.inr hd), hp]
    · have hneg : ((-1 : ℤ) : ℚ) * s.frame_interval_ms ≤ 0 := by
        push_cast
        linarith
      have hdelta : pyInt (((-1 : ℤ) : ℚ) * s.frame_interval_ms) ≤ 0 := pyInt_nonpos hneg
      rw [skip_frames_position (by decide) (not_le.mp hd), hp]
      omega

/-- C2 (witness): concrete instances of all four parts at duration 1000, default
    interval 1000/30: skip 0 and skip with duration 0 are no-ops, skip 2 from 980
    clamps to 1000, and skip -1 from 0 stays at 0. -/
theorem C2_witness :
    skip_frames 0 (initial_controller ⟨980, 1000, false⟩) =
      initial_controller ⟨980, 1000, false⟩ ∧
    skip_frames 2 (initial_controller ⟨980, 0, false⟩) =
      initial_controller ⟨980, 0, false⟩ ∧
    (skip_frames 2 (initial_controller ⟨980, 1000, false⟩)).player.position =
      max 0 (min (1000 : ℤ) (980 + pyInt ((2 : ℚ) * (1000 / 30)))) ∧
    (skip_frames (-1) (initial_controller ⟨0, 1000, false⟩)).player.position = 0 := by
  refine ⟨(C2_skip_frames (initial_controller ⟨980, 1000, false⟩) 0).1 rfl,
          (C2_skip_frames (initial_controller ⟨980, 0, false⟩) 2).2.1 (by decide),
          ((C2_skip_frames (initial_controller ⟨980, 1000, false⟩) 2).2.2.1
            (by decide) (by decide)).1,
          (C2_skip_frames (initial_controller ⟨0, 1000, false⟩) (-1)).2.2.2 rfl
            (by norm_num [initial_controller])⟩

/-- C3 (counterexample): with a positive duration of only 10 ms, discovering frame rate 60
    and then calling skip_frames(1) from position 0 seeks to 10 (clamped to the duration),
    not to 16 as the claim states for every positive duration. -/
theorem C3_counterexample :
    0 < (initial_controller ⟨0, 10, false⟩).player.duration ∧
    (skip_frames 1
      (handle_media_status .BufferedMedia (some 60)
        (initial_controller ⟨0, 10, false⟩)).1).player.position = 10 ∧
    (10 : ℤ) ≠ 16 := by
  refine ⟨by decide, ?_, by decide⟩
  norm_num [skip_frames, handle_media_status, update_frame_interval, initial_controller,
    pyInt]

/-- C3 (amended): after the controller discovers frame rate 60 from backend metadata on a
    buffered/loaded media status, skip_frames(1) from position 0 seeks to exactly 16 ms
    (int(1000/60) = 16), provided the duration is at least 16 ms (smaller positive
    durations clamp the result to the duration). -/
theorem C3_skip_after_rate_60 (s : ControllerState) (status : MediaStatus)
    (hst : status = .BufferedMedia ∨ status = .LoadedMedia)
    (hp : s.player.position = 0) (hd : 16 ≤ s.player.duration) :
    (skip_frames 1 (handle_media_status status (some 60) s).1).player.position = 16 := by
  have hs : (handle_media_status status (some 60) s).1 =
      { s with frame_interval_ms := 1000 / 60 } := by
    rcases hst with h | h <;>
      norm_num [handle_media_status, update_frame_interval, h]
  rw [hs]
  rw [skip_frames_position (s := { s with frame_interval_ms := 1000 / 60 }) (by decide)
    (by show (0 : ℤ) < s.player.duration; omega)]
  have hdelta : pyInt (((1 : ℤ) : ℚ) * (1000 / 60)) = 16 := by
    norm_num [pyInt]
  show max 0 (min s.player.duration (s.player.position + pyInt (((1 : ℤ) : ℚ) * (1000 / 60)))) = 16
  rw [hp, hdelta]
  omega

/-- C3 (witness): the amended property at the concrete state of the repository's test
    (position 0, duration 1000). -/
theorem C3_witness :
    (skip_frames 1
      (handle_media_status .BufferedMedia (some 60)
        (initial_controller ⟨0, 1000, false⟩)).1).player.position = 16 :=
  C3_skip_after_rate_60 (initial_controller ⟨0, 1000, false⟩) .BufferedMedia
    (Or.inl rfl) rfl (by decide)

/-- C4 (counterexample): frame-rate discovery with an absent metadata value does not keep
    a previously known non-default frame interval: from an interval of 1000/60 (discovered
    rate 60), a BufferedMedia discovery reporting no rate resets the interval to the
    default 1000/30. -/
theorem C4_counterexample :
    (handle_media_status .BufferedMedia none
      { player := ⟨0, 1000, false⟩, frame_interval_ms := 1000 / 60,
        loop_enabled := false }).1.frame_interval_ms = 1000 / 30 ∧
    ((1000 : ℚ) / 30) ≠ 1000 / 60 := by
  constructor
  · norm_num [handle_media_status, update_frame_interval]
  · norm_num

/-- C4 (amended): when frame-rate discovery runs on a buffered/loaded media status and the
    backend metadata's frame-rate value is absent or zero, the controller resets the frame
    interval to the default-derived 1000/30 (so it is kept unchanged only if it already
    was the default) and the frame_rate_changed notification it emits carries the positive
    default rate 30 — never a non-positive rate. -/
theorem C4_discovery_fallback (s : ControllerState) (status : MediaStatus)
    (metadata_rate : Option ℚ)
    (hst : status = .BufferedMedia ∨ status = .LoadedMedia)
    (hmv : metadata_rate = none ∨ metadata_rate = some 0) :
    (handle_media_status status metadata_rate s).1.frame_interval_ms = 1000 / 30 ∧
    (handle_media_status status metadata_rate s).2 = some 30 ∧
    (∀ q : ℚ, (handle_media_status status metadata_rate s).2 = some q → 0 < q) ∧
    (s.frame_interval_ms = 1000 / 30 →
      (handle_media_status status metadata_rate s).1.frame_interval_ms =
        s.frame_interval_ms) := by
  have h : handle_media_status status metadata_rate s =
      ({ s with frame_interval_ms := 1000 / 30 }, some 30) := by
    rcases hst with h | h <;> rcases hmv with hm | hm <;>
      norm_num [handle_media_status, update_frame_interval, h, hm]
  rw [h]
  refine ⟨rfl, rfl, ?_, ?_⟩
  · intro q hq
    have hq30 : q = 30 := by
      simpa using hq.symm
    rw [hq30]
    norm_num
  · intro hdef
    simp [hdef]

/-- C4 (witness): concrete instance at previous interval 1000/30, LoadedMedia status,
    metadata rate 0. -/
theorem C4_witness :
    (handle_media_status .LoadedMedia (some 0)
      (initial_controller ⟨0, 1000, false⟩)).1.frame_interval_ms = 1000 / 30 ∧
    (handle_media_status .LoadedMedia (some 0)
      (initial_controller ⟨0, 1000, false⟩)).2 = some 30 ∧
    (0 : ℚ) < 30 ∧
    (handle_media_status .LoadedMedia (some 0)
      (initial_controller ⟨0, 1000, false⟩)).1.frame_interval_ms =
      (initial_controller ⟨0, 1000, false⟩).frame_interval_ms := by
  have h := C4_discovery_fallback (initial_controller ⟨0, 1000, false⟩) .LoadedMedia
    (some 0) (Or.inr rfl) (Or.inr rfl)
  exact ⟨h.1, h.2.1, h.2.2.1 30 h.2.1, h.2.2.2 rfl⟩

/-- C5: a backend error callback with kind NoError never emits error_occurred; any other
    kind emits exactly one error_occurred event whose payload is the backend-supplied
    message, or the fixed generic message "Erro ao carregar o vídeo." when the supplied
    message is empty. -/
theorem C5_error_gating (error : PlayerErrorKind) (msg : String) :
    (error = .NoError → handle_error error msg = []) ∧
    (error ≠ .NoError →
      (handle_error error msg).length = 1 ∧
      handle_error error msg =
        [if msg = "" then "Erro ao carregar o vídeo." else msg]) := by
  constructor
  · intro h
    simp [handle_error, h]
  · intro h
    constructor
    · simp [handle_error, h]
    · simp [handle_error, h]

/-- C5 (witness): NoError emits nothing; ResourceError with message "boom" emits exactly
    ["boom"]; FormatError with an empty message emits the generic message. -/
theorem C5_witness :
    handle_error .NoError "" = [] ∧
    handle_error .ResourceError "boom" = ["boom"] ∧
    handle_error .FormatError "" = ["Erro ao carregar o vídeo."] := by
  refine ⟨(C5_error_gating .NoError "").1 rfl, ?_, ?_⟩
  · have h := (C5_error_gating .ResourceError "boom").2 (by decide)
    simpa using h.2
  · have h := (C5_error_gating .FormatError "").2 (by decide)
    simpa using h.2

/-- C6: calling set_current_tool with a tool different from the active one clears all
    in-progress Line gesture state (start point, dragging flag, preview item) and all
    in-progress Angle gesture state (collected points, preview lines); consequently, after
    starting a Line gesture with one click, switching to the Point tool and back to Line
    leaves no memory of the earlier start point. -/
theorem C6_tool_switch_clears_gestures :
    (∀ (tool : Tool) (s : ViewState), tool ≠ s.current_tool →
      (set_current_tool tool s).line_start_point = none ∧
      (set_current_tool tool s).line_is_dragging = false ∧
      (set_current_tool tool s).line_preview_item = false ∧
      (set_current_tool tool s).angle_points = [] ∧
      (set_current_tool tool s).angle_preview_lines = 0 ∧
      (set_current_tool tool s).current_tool = tool) ∧
    (∀ (video_rect : Rect) (x y : ℚ) (s : ViewState),
      s.current_tool = .line → s.line_start_point = none →
      video_rect.contains x y = true →
      (mouse_press video_rect x y s).1.line_start_point = some ⟨x, y⟩ ∧
      (set_current_tool .line
        (set_current_tool .point (mouse_press video_rect x y s).1)).line_start_point =
          none ∧
      (set_current_tool .line
        (set_current_tool .point (mouse_press video_rect x y s).1)).angle_points = []) := by
  constructor
  · intro tool s hne
    have h : s.current_tool ≠ tool := fun h => hne h.symm
    simp [set_current_tool, cancel_line_drawing, cancel_angle_drawing, h]
  · intro video_rect x y s htool hstart hin
    have hpress : (mouse_press video_rect x y s).1 =
        { s with line_start_point := some ⟨x, y⟩, line_is_dragging := true } := by
      simp [mouse_press, htool, hstart, hin]
    refine ⟨by rw [hpress], ?_, ?_⟩ <;>
      simp [hpress, set_current_tool, cancel_line_drawing, cancel_angle_drawing, htool]

/-- C6 (witness): a concrete in-progress state (Line start recorded, dragging, preview
    shown, two Angle points collected) is fully cleared by switching to Point; and the
    click-switch-switch-back scenario at a concrete rect and click point starts fresh. -/
theorem C6_witness :
    (set_current_tool .point
      ⟨.line, some ⟨3, 4⟩, true, true, false, [⟨1, 1⟩, ⟨2, 2⟩], 2, false⟩).line_start_point
        = none ∧
    (set_current_tool .point
      ⟨.line, some ⟨3, 4⟩, true, true, false, [⟨1, 1⟩, ⟨2, 2⟩], 2, false⟩).angle_points
        = [] ∧
    (mouse_press ⟨0, 0, 100, 100⟩ 5 7
      ⟨.line, none, false, false, false, [], 0, false⟩).1.line_start_point = some ⟨5, 7⟩ ∧
    (set_current_tool .line (set_current_tool .point
      (mouse_press ⟨0, 0, 100, 100⟩ 5 7
        ⟨.line, none, false, false, false, [], 0, false⟩).1)).line_start_point = none := by
  have h1 := C6_tool_switch_clears_gestures.1 .point
    ⟨.line, some ⟨3, 4⟩, true, true, false, [⟨1, 1⟩, ⟨2, 2⟩], 2, false⟩ (by decide)
  have h2 := C6_tool_switch_clears_gestures.2 ⟨0, 0, 100, 100⟩ 5 7
    ⟨.line, none, false, false, false, [], 0, false⟩ rfl rfl (by decide)
  exact ⟨h1.1, h1.2.2.2.1, h2.1, h2.2.1⟩

theorem arccos_deg_nonneg (c : ℝ) : 0 ≤ Real.arccos c * (180 / Real.pi) :=
  mul_nonneg (Real.arccos_nonneg c) (by positivity)

theorem arccos_deg_le (c : ℝ) : Real.arccos c * (180 / Real.pi) ≤ 180 := by
  have h1 := Real.arccos_le_pi c
  have hpi := Real.pi_pos
  have hstep : Real.arccos c * (180 / Real.pi) ≤ Real.pi * (180 / Real.pi) :=
    mul_le_mul_of_nonneg_right h1 (by positivity)
  have heq : Real.pi * (180 / Real.pi) = 180 := by
    field_simp
  linarith

theorem fold_deg_bounds (c : ℝ) :
    0 ≤ (if Real.arccos c * (180 / Real.pi) > 180 then 360 - Real.arccos c * (180 / Real.pi)
         else Real.arccos c * (180 / Real.pi)) ∧
    (if Real.arccos c * (180 / Real.pi) > 180 then 360 - Real.arccos c * (180 / Real.pi)
     else Real.arccos c * (180 / Real.pi)) ≤ 180 := by
  have h0 := arccos_deg_nonneg c
  have h1 := arccos_deg_le c
  split_ifs with h
  · exact ⟨by linarith, by linarith⟩
  · exact ⟨h0, h1⟩

/-- C7: the angle computation always returns a value in [0, 180]; it returns 0.0 whenever
    either vector from p2 has magnitude below the epsilon 0.001 (in particular for
    coincident p1 = p2); and at p1 = (0,0), p2 = (1,0), p3 = (1,1) (a right angle) it
    returns exactly 90 degrees. -/
theorem C7_angle_at :
    (∀ p1 p2 p3 : ℝ × ℝ,
      0 ≤ calculate_angle p1 p2 p3 ∧ calculate_angle p1 p2 p3 ≤ 180) ∧
    (∀ p1 p2 p3 : ℝ × ℝ,
      (Real.sqrt ((p1.1 - p2.1) * (p1.1 - p2.1) + (p1.2 - p2.2) * (p1.2 - p2.2)) < 0.001 ∨
       Real.sqrt ((p3.1 - p2.1) * (p3.1 - p2.1) + (p3.2 - p2.2) * (p3.2 - p2.2)) < 0.001) →
      calculate_angle p1 p2 p3 = 0) ∧
    (∀ p p3 : ℝ × ℝ, calculate_angle p p p3 = 0) ∧
    calculate_angle (0, 0) (1, 0) (1, 1) = 90 := by
  have hzero : ∀ p1 p2 p3 : ℝ × ℝ,
      (Real.sqrt ((p1.1 - p2.1) * (p1.1 - p2.1) + (p1.2 - p2.2) * (p1.2 - p2.2)) < 0.001 ∨
       Real.sqrt ((p3.1 - p2.1) * (p3.1 - p2.1) + (p3.2 - p2.2) * (p3.2 - p2.2)) < 0.001) →
      calculate_angle p1 p2 p3 = 0 := by
    intro p1 p2 p3 h
    simp only [calculate_angle]
    rw [if_pos h]
  refine ⟨?_, hzero, ?_, ?_⟩
  · intro p1 p2 p3
    by_cases h :
        Real.sqrt ((p1.1 - p2.1) * (p1.1 - p2.1) + (p1.2 - p2.2) * (p1.2 - p2.2)) < 0.001 ∨
        Real.sqrt ((p3.1 - p2.1) * (p3.1 - p2.1) + (p3.2 - p2.2) * (p3.2 - p2.2)) < 0.001
    · rw [hzero p1 p2 p3 h]
      norm_num
    · simp only [calculate_angle]
      rw [if_neg h]
      exact fold_deg_bounds _
  · intro p p3
    apply hzero
    left
    have hs : (p.1 - p.1) * (p.1 - p.1) + (p.2 - p.2) * (p.2 - p.2) = 0 := by ring
    rw [hs, Real.sqrt_zero]
    norm_num
  · simp only [calculate_angle]
    have harg1 : ((0 : ℝ) - 1) * ((0 : ℝ) - 1) + ((0 : ℝ) - 0) * ((0 : ℝ) - 0) = 1 := by
      norm_num
    have harg2 : ((1 : ℝ) - 1) * ((1 : ℝ) - 1) + ((1 : ℝ) - 0) * ((1 : ℝ) - 0) = 1 := by
      norm_num
    have hcond : ¬ (Real.sqrt (((0 : ℝ) - 1) * ((0 : ℝ) - 1) + ((0 : ℝ) - 0) * ((0 : ℝ) - 0))
          < 0.001 ∨
        Real.sqrt (((1 : ℝ) - 1) * ((1 : ℝ) - 1) + ((1 : ℝ) - 0) * ((1 : ℝ) - 0)) < 0.001) := by
      rw [harg1, harg2, Real.sqrt_one]
      norm_num
    rw [if_neg hcond, harg1, harg2, Real.sqrt_one]
    have hdot : ((0 : ℝ) - 1) * ((1 : ℝ) - 1) + ((0 : ℝ) - 0) * ((1 : ℝ) - 0) = 0 := by
      norm_num
    rw [hdot]
    have hclamp : max (-1 : ℝ) (min 1 ((0 : ℝ) / (1 * 1))) = 0 := by
      norm_num
    rw [hclamp, Real.arccos_zero]
    have h90 : Real.pi / 2 * (180 / Real.pi) = 90 := by
      have hpi := Real.pi_ne_zero
      field_simp
      ring
    rw [h90]
    norm_num

/-- C7 (witness): concrete instances — the range at one point triple, the epsilon case at
    coincident p1 = p2 = (0,0), and the exact right angle of the test triple. -/
theorem C7_witness :
    (0 ≤ calculate_angle (0, 0) (3, 4) (7, 1) ∧ calculate_angle (0, 0) (3, 4) (7, 1) ≤ 180) ∧
    calculate_angle (0, 0) (0, 0) (5, 5) = 0 ∧
    calculate_angle (0, 0) (1, 0) (1, 1) = 90 :=
  ⟨C7_angle_at.1 (0, 0) (3, 4) (7, 1),
   C7_angle_at.2.2.1 (0, 0) (5, 5),
   C7_angle_at.2.2.2⟩

/-- C8: for p1, p2 separated beyond the 0.001 epsilon on at least one axis, the projected
    point q satisfies (q - p2) · (p2 - p1) = 0, i.e. q lies on the line through p2
    perpendicular to the segment p1→p2; when p1 and p2 coincide within epsilon the cursor
    is returned unchanged; and for p1 = (0,0), p2 = (10,0), cursor (10,5) the result has
    x-coordinate exactly 10. -/
theorem C8_project_perpendicular :
    (∀ (p1 p2 : ℝ × ℝ) (x y : ℝ),
      ¬ (|p2.1 - p1.1| < 0.001 ∧ |p2.2 - p1.2| < 0.001) →
      ((project_to_perpendicular p1 p2 x y).1 - p2.1) * (p2.1 - p1.1) +
        ((project_to_perpendicular p1 p2 x y).2 - p2.2) * (p2.2 - p1.2) = 0) ∧
    (∀ (p1 p2 : ℝ × ℝ) (x y : ℝ),
      (|p2.1 - p1.1| < 0.001 ∧ |p2.2 - p1.2| < 0.001) →
      project_to_perpendicular p1 p2 x y = (x, y)) ∧
    (project_to_perpendicular (0, 0) (10, 0) 10 5).1 = 10 := by
  refine ⟨?_, ?_, ?_⟩
  · intro p1 p2 x y h
    simp only [project_to_perpendicular]
    rw [if_neg h]
    ring
  · intro p1 p2 x y h
    simp only [project_to_perpendicular]
    rw [if_pos h]
  · simp only [project_to_perpendicular]
    rw [if_neg (by norm_num)]
    have harg : -((0 : ℝ) - 0) * -((0 : ℝ) - 0) + ((10 : ℝ) - 0) * ((10 : ℝ) - 0) = 100 := by
      norm_num
    have hsqrt : Real.sqrt 100 = 10 := by
      rw [show (100 : ℝ) = 10 ^ 2 by norm_num]
      exact Real.sqrt_sq (by norm_num)
    rw [harg, hsqrt]
    norm_num

theorem div_sqrt_combine (a b c vx vy p L : ℝ) (hL : L ≠ 0) (hLL : L * L = -b * -b + a * a) :
    p + (vx * (-b / L) + vy * (a / L)) * (c / L) =
      p + (vx * -b + vy * a) * c / (-b * -b + a * a) := by
  rw [← hLL]
  field_simp
  ring

theorem project_to_perpendicular_agrees (p1 p2 : QPoint) (x y : ℚ) :
    project_to_perpendicular ((p1.x : ℝ), (p1.y : ℝ)) ((p2.x : ℝ), (p2.y : ℝ))
        (x : ℝ) (y : ℝ) =
      (((project_to_perpendicular_rat p1 p2 x y).1 : ℝ),
       ((project_to_perpendicular_rat p1 p2 x y).2 : ℝ)) := by
  have hcast : ∀ a b : ℚ, (|(a : ℝ) - (b : ℝ)| < 0.001) ↔ |a - b| < 1/1000 := by
    intro a b
    rw [show (0.001 : ℝ) = ((1/1000 : ℚ) : ℝ) by norm_num, ← Rat.cast_sub, ← Rat.cast_abs,
      Rat.cast_lt]
  by_cases h : |p2.x - p1.x| < 1/1000 ∧ |p2.y - p1.y| < 1/1000
  · have hR : |(p2.x : ℝ) - (p1.x : ℝ)| < 0.001 ∧ |(p2.y : ℝ) - (p1.y : ℝ)| < 0.001 :=
      ⟨(hcast _ _).mpr h.1, (hcast _ _).mpr h.2⟩
    simp only [project_to_perpendicular, project_to_perpendicular_rat]
    rw [if_pos h, if_pos hR]
  · have hR : ¬ (|(p2.x : ℝ) - (p1.x : ℝ)| < 0.001 ∧ |(p2.y : ℝ) - (p1.y : ℝ)| < 0.001) := by
      intro hc
      exact h ⟨(hcast _ _).mp hc.1, (hcast _ _).mp hc.2⟩
    have hpos : 0 < -((p2.y : ℝ) - (p1.y : ℝ)) * -((p2.y : ℝ) - (p1.y : ℝ)) +
        ((p2.x : ℝ) - (p1.x : ℝ)) * ((p2.x : ℝ) - (p1.x : ℝ)) := by
      rcases not_and_or.mp h with hx | hy
      · have hq : p2.x - p1.x ≠ 0 := by
          intro h0
          exact hx (by rw [h0]; norm_num)
        have hrne : (p2.x : ℝ) - (p1.x : ℝ) ≠ 0 := by
          intro h0
          exact hq (by exact_mod_cast (by push_cast at h0 ⊢; linarith : ((p2.x - p1.x : ℚ) : ℝ) = 0))
        nlinarith [mul_self_pos.mpr hrne, mul_self_nonneg (-((p2.y : ℝ) - (p1.y : ℝ)))]
      · have hq : p2.y - p1.y ≠ 0 := by
          intro h0
          exact hy (by rw [h0]; norm_num)
        have hrne : (p2.y : ℝ) - (p1.y : ℝ) ≠ 0 := by
          intro h0
          exact hq (by exact_mod_cast (by push_cast at h0 ⊢; linarith : ((p2.y - p1.y : ℚ) : ℝ) = 0))
        have hrne' : -((p2.y : ℝ) - (p1.y : ℝ)) ≠ 0 := neg_ne_zero.mpr hrne
        nlinarith [mul_self_pos.mpr hrne', mul_self_nonneg ((p2.x : ℝ) - (p1.x : ℝ))]
    have hL2 : Real.sqrt (-((p2.y : ℝ) - (p1.y : ℝ)) * -((p2.y : ℝ) - (p1.y : ℝ)) +
          ((p2.x : ℝ) - (p1.x : ℝ)) * ((p2.x : ℝ) - (p1.x : ℝ))) *
        Real.sqrt (-((p2.y : ℝ) - (p1.y : ℝ)) * -((p2.y : ℝ) - (p1.y : ℝ)) +
          ((p2.x : ℝ) - (p1.x : ℝ)) * ((p2.x : ℝ) - (p1.x : ℝ))) =
        -((p2.y : ℝ) - (p1.y : ℝ)) * -((p2.y : ℝ) - (p1.y : ℝ)) +
          ((p2.x : ℝ) - (p1.x : ℝ)) * ((p2.x : ℝ) - (p1.x : ℝ)) :=
      Real.mul_self_sqrt hpos.le
    have hLne : Real.sqrt (-((p2.y : ℝ) - (p1.y : ℝ)) * -((p2.y : ℝ) - (p1.y : ℝ)) +
        ((p2.x : ℝ) - (p1.x : ℝ)) * ((p2.x : ℝ) - (p1.x : ℝ))) ≠ 0 :=
      (Real.sqrt_pos.mpr hpos).ne'
    simp only [project_to_perpendicular, project_to_perpendicular_rat]
    rw [if_neg h, if_neg hR]
    push_cast
    rw [Prod.mk.injEq]
    exact ⟨div_sqrt_combine _ _ _ _ _ _ _ hLne hL2, div_sqrt_combine _ _ _ _ _ _ _ hLne hL2⟩

/-- C8 (witness): the orthogonality property applied at p1 = (0,0), p2 = (10,0), cursor
    (10,5), together with the degenerate case at coincident points and the example. -/
theorem C8_witness :
    ((project_to_perpendicular (0, 0) (10, 0) 10 5).1 - 10) * ((10 : ℝ) - 0) +
      ((project_to_perpendicular (0, 0) (10, 0) 10 5).2 - 0) * ((0 : ℝ) - 0) = 0 ∧
    project_to_perpendicular (2, 3) (2, 3) 7 9 = (7, 9) ∧
    (project_to_perpendicular (0, 0) (10, 0) 10 5).1 = 10 :=
  ⟨C8_project_perpendicular.1 (0, 0) (10, 0) 10 5 (by norm_num),
   C8_project_perpendicular.2.1 (2, 3) (2, 3) 7 9 (by norm_num),
   C8_project_perpendicular.2.2⟩

theorem dictGet_erase_self (m : List (ℤ × List Annotation)) (k : ℤ) :
    dictGet (dictErase m k) k = none := by
  induction m with
  | nil => rfl
  | cons p t ih =>
      by_cases h : p.1 = k
      · simp [dictErase, h, ih]
      · simp [dictErase, dictGet, h, ih]

theorem dictGet_erase_other (m : List (ℤ × List Annotation)) (k g : ℤ) (h : g ≠ k) :
    dictGet (dictErase m k) g = dictGet m g := by
  induction m with
  | nil => rfl
  | cons p t ih =>
      by_cases hp : p.1 = k
      · have hpg : ¬ p.1 = g := by rw [hp]; exact Ne.symm h
        simp [dictErase, hp, dictGet, hpg, ih, Ne.symm h]
      · by_cases hg : p.1 = g
        · simp [dictErase, hp, dictGet, hg, h]
        · simp [dictErase, hp, dictGet, hg, ih]

theorem dictGet_set_self (m : List (ℤ × List Annotation)) (k : ℤ) (v : List Annotation) :
    dictGet (dictSet m k v) k = some v := by
  induction m with
  | nil => simp [dictSet, dictGet]
  | cons p t ih =>
      by_cases h : p.1 = k
      · simp [dictSet, dictGet, h]
      · simp [dictSet, dictGet, h, ih]

theorem dictGet_set_other (m : List (ℤ × List Annotation)) (k g : ℤ) (v : List Annotation)
    (h : g ≠ k) : dictGet (dictSet m k v) g = dictGet m g := by
  have hkg : ¬ (k : ℤ) = g := Ne.symm h
  induction m with
  | nil => simp [dictSet, dictGet, hkg]
  | cons p t ih =>
      by_cases hp : p.1 = k
      · simp [dictSet, dictGet, hp, hkg]
      · by_cases hg : p.1 = g
        · simp [dictSet, dictGet, hp, hg, h]
        · simp [dictSet, dictGet, hp, hg, ih]

/-- C9: annotation IDs are allocated from separate monotonically increasing per-type
    counters starting at 1: from a store whose point/line counters are zero (as after
    __init__), adding two Point annotations and then one Line annotation, on any frames,
    yields Point IDs 1 and 2 and Line ID 1; each creation bumps exactly its own type's
    counter, and deletion (of frames or annotations) never changes any counter. -/
theorem C9_id_allocation :
    (∀ (s : Store) (f1 f2 f3 : ℤ) (x1 y1 x2 y2 a b c d : ℚ) (sz w : ℕ)
        (col1 col2 col3 : RGB),
      s.counter_point = 0 → s.counter_line = 0 →
      (create_point_annot f1 x1 y1 sz col1 s).2.id = 1 ∧
      (create_point_annot f2 x2 y2 sz col2
        (create_point_annot f1 x1 y1 sz col1 s).1).2.id = 2 ∧
      (create_line_annot f3 a b c d w col3
        (create_point_annot f2 x2 y2 sz col2
          (create_point_annot f1 x1 y1 sz col1 s).1).1).2.id = 1) ∧
    (∀ (s : Store) (f : ℤ) (x y : ℚ) (sz : ℕ) (col : RGB),
      (create_point_annot f x y sz col s).1.counter_point = s.counter_point + 1 ∧
      (create_point_annot f x y sz col s).1.counter_line = s.counter_line ∧
      (create_point_annot f x y sz col s).1.counter_angle = s.counter_angle) ∧
    (∀ (s : Store) (f : ℤ) (x1 y1 x2 y2 : ℚ) (w : ℕ) (col : RGB),
      (create_line_annot f x1 y1 x2 y2 w col s).1.counter_line = s.counter_line + 1 ∧
      (create_line_annot f x1 y1 x2 y2 w col s).1.counter_point = s.counter_point ∧
      (create_line_annot f x1 y1 x2 y2 w col s).1.counter_angle = s.counter_angle) ∧
    (∀ (sel : TreeSelection) (s : Store),
      (delete_selected sel s).counter_point = s.counter_point ∧
      (delete_selected sel s).counter_line = s.counter_line ∧
      (delete_selected sel s).counter_angle = s.counter_angle ∧
      (delete_selected sel s).counter_freehand = s.counter_freehand ∧
      (delete_selected sel s).counter_brush = s.counter_brush) := by
  refine ⟨?_, ?_, ?_, ?_⟩
  · intro s f1 f2 f3 x1 y1 x2 y2 a b c d sz w col1 col2 col3 h1 h2
    refine ⟨?_, ?_, ?_⟩ <;>
      simp [create_point_annot, create_line_annot, h1, h2]
  · intro s f x y sz col
    refine ⟨?_, ?_, ?_⟩ <;> simp [create_point_annot]
  · intro s f x1 y1 x2 y2 w col
    refine ⟨?_, ?_, ?_⟩ <;> simp [create_line_annot]
  · intro sel s
    cases sel with
    | legacy_frame f => simp [delete_selected]
    | frame_node f => simp [delete_selected]
    | annotation_node f a =>
        simp only [delete_selected]
        rcases hkey : dictGet s.annotations f with _ | lst
        · simp
        · by_cases hmem : a ∈ lst <;> simp [hmem]

/-- C9 (witness): two points on frames 5 and 9 then a line on frame 5, starting from the
    initial store, get Point IDs 1 and 2 and Line ID 1; deleting frame 5 afterwards
    leaves all counters unchanged. -/
theorem C9_witness :
    (create_point_annot 5 1 2 3 ⟨255, 0, 0⟩ initial_store).2.id = 1 ∧
    (create_point_annot 9 4 5 3 ⟨255, 0, 0⟩
      (create_point_annot 5 1 2 3 ⟨255, 0, 0⟩ initial_store).1).2.id = 2 ∧
    (create_line_annot 5 0 0 1 1 2 ⟨0, 255, 0⟩
      (create_point_annot 9 4 5 3 ⟨255, 0, 0⟩
        (create_point_annot 5 1 2 3 ⟨255, 0, 0⟩ initial_store).1).1).2.id = 1 ∧
    (delete_selected (.frame_node 5)
      (create_line_annot 5 0 0 1 1 2 ⟨0, 255, 0⟩
        (create_point_annot 9 4 5 3 ⟨255, 0, 0⟩
          (create_point_annot 5 1 2 3 ⟨255, 0, 0⟩ initial_store).1).1).1).counter_line =
      (create_line_annot 5 0 0 1 1 2 ⟨0, 255, 0⟩
        (create_point_annot 9 4 5 3 ⟨255, 0, 0⟩
          (create_point_annot 5 1 2 3 ⟨255, 0, 0⟩ initial_store).1).1).1.counter_line := by
  have h1 := C9_id_allocation.1 initial_store 5 9 5 1 2 4 5 0 0 1 1 3 2
    ⟨255, 0, 0⟩ ⟨255, 0, 0⟩ ⟨0, 255, 0⟩ rfl rfl
  have h4 := C9_id_allocation.2.2.2 (.frame_node 5)
    (create_line_annot 5 0 0 1 1 2 ⟨0, 255, 0⟩
      (create_point_annot 9 4 5 3 ⟨255, 0, 0⟩
        (create_point_annot 5 1 2 3 ⟨255, 0, 0⟩ initial_store).1).1).1
  exact ⟨h1.1, h1.2.1, h1.2.2, h4.2.1⟩

/-- C10: deleting a SavedFrame removes the frame entry and every annotation stored for
    that frame in one operation (other frames' lists untouched); deleting a single
    annotation removes only that annotation from its frame's list and leaves the
    saved-frame entries, the frame's remaining annotations, and the (possibly now empty)
    dict entry for that frame unchanged. -/
theorem C10_deletion :
    (∀ (s : Store) (f : ℤ),
      (delete_selected (.frame_node f) s).saved_frames =
        s.saved_frames.filter (fun e => e.frame ≠ f) ∧
      dictGet (delete_selected (.frame_node f) s).annotations f = none ∧
      (∀ g : ℤ, g ≠ f →
        dictGet (delete_selected (.frame_node f) s).annotations g =
          dictGet s.annotations g)) ∧
    (∀ (s : Store) (f : ℤ) (a : Annotation) (lst : List Annotation),
      dictGet s.annotations f = some lst → a ∈ lst →
      (delete_selected (.annotation_node f a) s).saved_frames = s.saved_frames ∧
      dictGet (delete_selected (.annotation_node f a) s).annotations f =
        some (lst.erase a) ∧
      (∀ g : ℤ, g ≠ f →
        dictGet (delete_selected (.annotation_node f a) s).annotations g =
          dictGet s.annotations g)) := by
  constructor
  · intro s f
    exact ⟨rfl, dictGet_erase_self s.annotations f,
      fun g hg => dictGet_erase_other s.annotations f g hg⟩
  · intro s f a lst hget hmem
    have hred : delete_selected (.annotation_node f a) s =
        { s with annotations := dictSet s.annotations f (lst.erase a) } := by
      simp [delete_selected, hget, hmem]
    rw [hred]
    exact ⟨rfl, dictGet_set_self s.annotations f _,
      fun g hg => dictGet_set_other s.annotations f g _ hg⟩

/-- C10 (witness): on a store holding frames 3 and 5 with one and two annotations,
    deleting frame 3 empties its entry while frame 5 keeps its list; deleting the first
    of frame 5's two annotations keeps both saved frames, leaves frame 5's entry present
    holding only the second annotation, and leaves frame 3's list untouched. -/
theorem C10_witness :
    (delete_selected (.frame_node 3)
      { saved_frames := [⟨3, none⟩, ⟨5, none⟩],
        annotations := [(3, [⟨.point 1 1 3, ⟨0, 0, 0⟩, none, 1⟩]),
                        (5, [⟨.point 2 2 3, ⟨0, 0, 0⟩, none, 2⟩,
                             ⟨.line 0 0 1 1 2, ⟨0, 0, 0⟩, none, 1⟩])],
        counter_point := 2, counter_line := 1, counter_angle := 0,
        counter_freehand := 0, counter_brush := 0 }).saved_frames = [⟨5, none⟩] ∧
    dictGet (delete_selected (.frame_node 3)
      { saved_frames := [⟨3, none⟩, ⟨5, none⟩],
        annotations := [(3, [⟨.point 1 1 3, ⟨0, 0, 0⟩, none, 1⟩]),
                        (5, [⟨.point 2 2 3, ⟨0, 0, 0⟩, none, 2⟩,
                             ⟨.line 0 0 1 1 2, ⟨0, 0, 0⟩, none, 1⟩])],
        counter_point := 2, counter_line := 1, counter_angle := 0,
        counter_freehand := 0, counter_brush := 0 }).annotations 3 = none ∧
    (delete_selected (.annotation_node 5 ⟨.point 2 2 3, ⟨0, 0, 0⟩, none, 2⟩)
      { saved_frames := [⟨3, none⟩, ⟨5, none⟩],
        annotations := [(3, [⟨.point 1 1 3, ⟨0, 0, 0⟩, none, 1⟩]),
                        (5, [⟨.point 2 2 3, ⟨0, 0, 0⟩, none, 2⟩,
                             ⟨.line 0 0 1 1 2, ⟨0, 0, 0⟩, none, 1⟩])],
        counter_point := 2, counter_line := 1, counter_angle := 0,
        counter_freehand := 0, counter_brush := 0 }).saved_frames =
      [⟨3, none⟩, ⟨5, none⟩] ∧
    dictGet (delete_selected (.annotation_node 5 ⟨.point 2 2 3, ⟨0, 0, 0⟩, none, 2⟩)
      { saved_frames := [⟨3, none⟩, ⟨5, none⟩],
        annotations := [(3, [⟨.point 1 1 3, ⟨0, 0, 0⟩, none, 1⟩]),
                        (5, [⟨.point 2 2 3, ⟨0, 0, 0⟩, none, 2⟩,
                             ⟨.line 0 0 1 1 2, ⟨0, 0, 0⟩, none, 1⟩])],
        counter_point := 2, counter_line := 1, counter_angle := 0,
        counter_freehand := 0, counter_brush := 0 }).annotations 5 =
      some ([⟨.point 2 2 3, ⟨0, 0, 0⟩, none, 2⟩,
             ⟨.line 0 0 1 1 2, ⟨0, 0, 0⟩, none, 1⟩].erase
        ⟨.point 2 2 3, ⟨0, 0, 0⟩, none, 2⟩) ∧
    dictGet (delete_selected (.annotation_node 5 ⟨.point 2 2 3, ⟨0, 0, 0⟩, none, 2⟩)
      { saved_frames := [⟨3, none⟩, ⟨5, none⟩],
        annotations := [(3, [⟨.point 1 1 3, ⟨0, 0, 0⟩, none, 1⟩]),
                        (5, [⟨.point 2 2 3, ⟨0, 0, 0⟩, none, 2⟩,
                             ⟨.line 0 0 1 1 2, ⟨0, 0, 0⟩, none, 1⟩])],
        counter_point := 2, counter_line := 1, counter_angle := 0,
        counter_freehand := 0, counter_brush := 0 }).annotations 3 =
      dictGet [(3, [⟨.point 1 1 3, ⟨0, 0, 0⟩, none, 1⟩]),
               (5, [⟨.point 2 2 3, ⟨0, 0, 0⟩, none, 2⟩,
                    ⟨.line 0 0 1 1 2, ⟨0, 0, 0⟩, none, 1⟩])] 3 := by
  have hf := C10_deletion.1
    { saved_frames := [⟨3, none⟩, ⟨5, none⟩],
      annotations := [(3, [⟨.point 1 1 3, ⟨0, 0, 0⟩, none, 1⟩]),
                      (5, [⟨.point 2 2 3, ⟨0, 0, 0⟩, none, 2⟩,
                           ⟨.line 0 0 1 1 2, ⟨0, 0, 0⟩, none, 1⟩])],
      counter_point := 2, counter_line := 1, counter_angle := 0,
      counter_freehand := 0, counter_brush := 0 } 3
  have ha := C10_deletion.2
    { saved_frames := [⟨3, none⟩, ⟨5, none⟩],
      annotations := [(3, [⟨.point 1 1 3, ⟨0, 0, 0⟩, none, 1⟩]),
                      (5, [⟨.point 2 2 3, ⟨0, 0, 0⟩, none, 2⟩,
                           ⟨.line 0 0 1 1 2, ⟨0, 0, 0⟩, none, 1⟩])],
      counter_point := 2, counter_line := 1, counter_angle := 0,
      counter_freehand := 0, counter_brush := 0 } 5
    ⟨.point 2 2 3, ⟨0, 0, 0⟩, none, 2⟩
    [⟨.point 2 2 3, ⟨0, 0, 0⟩, none, 2⟩, ⟨.line 0 0 1 1 2, ⟨0, 0, 0⟩, none, 1⟩]
    (by decide) (by decide)
  refine ⟨?_, hf.2.1, ha.1, ha.2.1, ha.2.2 3 (by decide)⟩
  rw [hf.1]
  decide

end VideoMLEditor

